import Mathlib

/-
  Verification of the aegisAI governance pipeline against its specification.

  The Python sources are shallowly embedded:
  * Python strings are `List Char` (`Str`); `str.lower()` is `lowerStr`,
    the `in` substring test is `strContains`.
  * Python floats are modelled as exact rationals `ℚ`; `round(x, 2)` is
    `round2` (round half to even on the exact rational, as Python does).
  * Python dicts carrying optional keys (`d.get(k, default)`) are structures
    with `Option` fields read through `Option.getD`.
  * External effects are explicit parameters: the DynamoDB policy-table scan
    is an `Option (List Policy)` (`none` models a raised exception), the
    Bedrock model call is an environment returning `Option ℚ` (`none` models
    a failed call or an unparseable response), and Cognito verification is an
    `Option UserContext` (`none` models a rejected token / raised exception).
-/

/-- Python strings, embedded as lists of characters. -/
abbrev Str := List Char

/-- Python `s.lower()`. -/
def lowerStr (s : Str) : Str := s.map Char.toLower

/-- `w` occurs in `s` starting at index `i`. -/
def occursAt (w s : Str) (i : Nat) : Bool := decide ((s.drop i).take w.length = w)

/-- Python's substring test `w in s`. -/
def strContains (s w : Str) : Bool := (List.range (s.length + 1)).any (fun i => occursAt w s i)

/-- The Python expression joining violation strings with a semicolon separator. -/
def joinSemi (vs : List Str) : Str := List.intercalate "; ".toList vs

/-- Gap allowed by `.*` in a Python regex without DOTALL: any characters except newline. -/
def noNewline (cs : Str) : Bool := cs.all (fun c => c ≠ '\n')

/-- Helper for `reSearchSeq`: match the remaining literal words, each preceded by a
`.*` gap that may not contain a newline. -/
def matchTail : List Str → Str → Bool
  | [], _ => true
  | w :: ws, s => (List.range (s.length + 1)).any fun i =>
      noNewline (s.take i) && occursAt w s i && matchTail ws (s.drop (i + w.length))

/-- Python `re.search` for a pattern of the form `w1.*w2.*w3` built from literal
words `[w1, w2, w3]` (no DOTALL, so the `.*` gaps cannot span a newline; the
text before the first word is unconstrained). -/
def reSearchSeq : List Str → Str → Bool
  | [], _ => true
  | w :: ws, s => (List.range (s.length + 1)).any fun i =>
      occursAt w s i && matchTail ws (s.drop (i + w.length))

/-- Round half to even at the integer, Python's rounding rule on an exact value. -/
def roundHalfEven (x : ℚ) : ℤ :=
  let n := ⌊x⌋
  let r := x - n
  if r < 1/2 then n
  else if 1/2 < r then n + 1
  else if n % 2 = 0 then n else n + 1

/-- Python `round(x, 2)` on the exact rational value. -/
def round2 (x : ℚ) : ℚ := (roundHalfEven (x * 100) : ℚ) / 100

/- ===================== PromptGuardAgent ===================== -/

namespace PromptGuard

/-- `self.risk_keywords` from `PromptGuardAgent.__init__`. -/
def risk_keywords : List Str :=
  ["hack", "exploit", "bypass", "jailbreak", "ignore instructions",
   "violence", "harmful", "illegal", "discriminatory", "bias",
   "personal information", "private data", "confidential"].map String.toList

/-- The `injection_patterns` of `_calculate_risk_score`, each regex
`a.*b.*c` given by its list of literal words. -/
def injection_patterns : List (List Str) :=
  [["ignore", "previous", "instructions"],
   ["forget", "everything", "above"],
   ["new", "instructions", "follow"],
   ["system", "prompt", "override"]].map (List.map String.toList)

/-- `_bedrock_risk_analysis`: the parsed numeric rating is clamped to `[0, 3]`;
a failed call or unparseable response (`none`) yields `0.0`. -/
def bedrock_risk_analysis (resp : Option ℚ) : ℚ :=
  match resp with
  | none => 0
  | some r => min 3 (max 0 r)

/-- `_calculate_risk_score`: 1.5 per risk keyword present, +1.0 for length
over 2000, +2.0 per matching injection pattern, plus the Bedrock rating,
clamped to at most 10. -/
def calculate_risk_score (prompt : Str) (resp : Option ℚ) : ℚ :=
  let prompt_lower := lowerStr prompt
  let s1 := risk_keywords.foldl
    (fun acc keyword => if strContains prompt_lower keyword then acc + 1.5 else acc) (0 : ℚ)
  let s2 := if 2000 < prompt.length then s1 + 1.0 else s1
  let s3 := injection_patterns.foldl
    (fun acc pat => if reSearchSeq pat prompt_lower then acc + 2.0 else acc) s2
  min 10.0 (s3 + bedrock_risk_analysis resp)

/-- `_determine_status`, the prompt-screening decision table. -/
def determine_status (risk_score : ℚ) (violations flags : List Str) : Str :=
  if 7.0 ≤ risk_score ∨ 2 ≤ violations.length then "BLOCKED".toList
  else if 4.0 ≤ risk_score ∨ 1 ≤ violations.length ∨ 1 ≤ flags.length then "WARNING".toList
  else "APPROVED".toList

end PromptGuard

/- ===================== OutputAuditorAgent ===================== -/

namespace OutputAuditor

/-- `_calculate_overall_score`: the fixed-weight combination, rounded by the
source to two decimal places. -/
def calculate_overall_score (bias_score toxicity_score fairness_score : ℚ) : ℚ :=
  round2 ((10 - bias_score) * 0.4 + (10 - toxicity_score) * 0.4 + fairness_score * 0.2)

/-- `_determine_audit_status`, the output-audit decision table. -/
def determine_audit_status (overall_score : ℚ) (violations : List Str) : Str :=
  if 8.0 ≤ overall_score ∧ violations = [] then "APPROVED".toList
  else if 6.0 ≤ overall_score ∧ violations.length ≤ 1 then "REVIEW_RECOMMENDED".toList
  else "REVISION_REQUIRED".toList

end OutputAuditor

/- ===================== PolicyEnforcerAgent ===================== -/

namespace PolicyEnforcer

/-- A stored rule dict; every key is optional and read through the source's
`rule.get(key, default)`. -/
structure Rule where
  type : Option Str := none
  name : Option Str := none
  blocked_terms : Option (List Str) := none
  required_terms : Option (List Str) := none
  allowed_roles : Option (List Str) := none
  restricted_activities : Option (List Str) := none
  max_length : Option ℤ := none
  min_length : Option ℤ := none
  analysis_type : Option Str := none
  threshold : Option ℚ := none
  enforcement_actions : Option (List Str) := none
deriving DecidableEq

/-- A stored policy dict from the `aegis-policies` table. -/
structure Policy where
  policy_name : Option Str := none
  status : Option Str := none
  applicable_roles : Option (List Str) := none
  applicable_activities : Option (List Str) := none
  rules : Option (List Rule) := none
deriving DecidableEq

/-- The verdict dict returned by `_evaluate_rule` and its helpers. -/
structure RuleVerdict where
  rule_name : Str
  passed : Bool
  message : Str
  actions : List Str
deriving DecidableEq

/-- The per-policy result dict returned by `_evaluate_policy`. -/
structure PolicyVerdict where
  policy_name : Str
  allowed : Bool
  violations : List RuleVerdict
  actions : List Str
  rule_count : ℕ
deriving DecidableEq

/-- The Bedrock environment seen by `_bedrock_policy_analysis`: given the
content and the analysis type, the parsed `Score:` value of the model
response, or `none` when the call raised or no score line parsed. -/
abbrev BedrockEnv := Str → Str → Option ℚ

/-- `_bedrock_policy_analysis`: the parsed score clamped to `[0, 1]`; a failed
call or a response with no parseable `Score:` line yields `0.0`. -/
def bedrock_policy_analysis (env : BedrockEnv) (content analysis_type : Str) : ℚ :=
  match env content analysis_type with
  | none => 0
  | some score => min 1.0 (max 0.0 score)

/-- The `violations` list built by the two loops of `_evaluate_content_filter`. -/
def content_filter_violations (rule : Rule) (content : Str) : List Str :=
  let blocked_terms := rule.blocked_terms.getD []
  let required_terms := rule.required_terms.getD []
  let content_lower := lowerStr content
  blocked_terms.filterMap (fun term =>
      if strContains content_lower (lowerStr term)
      then some ("Contains blocked term: ".toList ++ term) else none)
    ++ required_terms.filterMap (fun term =>
      if strContains content_lower (lowerStr term)
      then none else some ("Missing required term: ".toList ++ term))

/-- `_evaluate_content_filter`. -/
def evaluate_content_filter (rule : Rule) (content : Str) : RuleVerdict :=
  let violations := content_filter_violations rule content
  let passed := decide (violations.length = 0)
  { rule_name := rule.name.getD "Content Filter".toList
    passed := passed
    message := if violations = [] then "Content filter passed".toList else joinSemi violations
    actions := if passed then [] else rule.enforcement_actions.getD ["warn".toList] }

/-- `_evaluate_role_restriction`. -/
def evaluate_role_restriction (rule : Rule) (user_role activity_type : Str) : RuleVerdict :=
  let allowed_roles := rule.allowed_roles.getD ["admin".toList]
  let restricted_activities := rule.restricted_activities.getD []
  let violations :=
    (if user_role ∈ allowed_roles then []
       else [("Role '".toList ++ user_role ++ "' not authorized for this action".toList)])
    ++ (if activity_type ∈ restricted_activities
       then [("Activity '".toList ++ activity_type ++ "' is restricted".toList)] else [])
  let passed := decide (violations.length = 0)
  { rule_name := rule.name.getD "Role Restriction".toList
    passed := passed
    message := if violations = [] then "Role restriction passed".toList else joinSemi violations
    actions := if passed then [] else rule.enforcement_actions.getD ["block".toList] }

/-- `_evaluate_time_restriction`: a deliberate no-op that always passes. -/
def evaluate_time_restriction (rule : Rule) : RuleVerdict :=
  { rule_name := rule.name.getD "Time Restriction".toList
    passed := true
    message := "Time restriction passed".toList
    actions := [] }

/-- `_evaluate_content_length` (the numeric interpolation of the messages is
elided; no claim depends on those digits). -/
def evaluate_content_length (rule : Rule) (content : Str) : RuleVerdict :=
  let max_length := rule.max_length.getD 10000
  let min_length := rule.min_length.getD 0
  let content_length : ℤ := content.length
  let violations :=
    (if max_length < content_length then ["Content too long".toList] else [])
    ++ (if content_length < min_length then ["Content too short".toList] else [])
  let passed := decide (violations.length = 0)
  { rule_name := rule.name.getD "Content Length".toList
    passed := passed
    message := if violations = [] then "Content length within limits".toList else joinSemi violations
    actions := if passed then [] else rule.enforcement_actions.getD ["warn".toList] }

/-- `_evaluate_ai_analysis` (the numeric interpolation of the message is
elided; no claim depends on those digits). -/
def evaluate_ai_analysis (rule : Rule) (content : Str) (env : BedrockEnv) : RuleVerdict :=
  let analysis_type := rule.analysis_type.getD "general".toList
  let threshold := rule.threshold.getD 0.5
  let score := bedrock_policy_analysis env content analysis_type
  let passed := decide (score ≤ threshold)
  { rule_name := rule.name.getD "AI Analysis".toList
    passed := passed
    message := "AI analysis score".toList
    actions := if passed then [] else rule.enforcement_actions.getD ["review".toList] }

/-- `_evaluate_rule`: dispatch on the rule's `type` string; an unrecognized
type yields a passing verdict naming the unknown type. -/
def evaluate_rule (rule : Rule) (content user_role activity_type : Str)
    (env : BedrockEnv) : RuleVerdict :=
  let rule_type := rule.type.getD "unknown".toList
  if rule_type = "content_filter".toList then evaluate_content_filter rule content
  else if rule_type = "role_restriction".toList then
    evaluate_role_restriction rule user_role activity_type
  else if rule_type = "time_restriction".toList then evaluate_time_restriction rule
  else if rule_type = "content_length".toList then evaluate_content_length rule content
  else if rule_type = "ai_analysis".toList then evaluate_ai_analysis rule content env
  else
    { rule_name := rule.name.getD "Unnamed Rule".toList
      passed := true
      message := "Unknown rule type: ".toList ++ rule_type
      actions := [] }

/-- `_evaluate_policy`: the loop over the policy's rules, accumulating the
failing verdicts, the running `allowed` flag, and the enforcement actions. -/
def evaluate_policy (policy : Policy) (content user_role activity_type : Str)
    (env : BedrockEnv) : PolicyVerdict :=
  let rules := policy.rules.getD []
  let acc := rules.foldl
    (fun (acc : List RuleVerdict × Bool × List Str) rule =>
      let rule_result := evaluate_rule rule content user_role activity_type env
      if rule_result.passed then acc
      else (acc.1 ++ [rule_result], false, acc.2.2 ++ rule_result.actions))
    ([], true, [])
  { policy_name := policy.policy_name.getD "Unknown".toList
    allowed := acc.2.1
    violations := acc.1
    actions := acc.2.2
    rule_count := rules.length }

/-- The applicability test of `_get_applicable_policies`, mirroring the
source's `continue` chain: role check, then activity check (with the `"all"`
wildcard), then the active-status check. -/
def policy_applies (policy : Policy) (user_role activity_type : Str) : Bool :=
  let applicable_roles :=
    policy.applicable_roles.getD ["admin".toList, "analyst".toList, "user".toList]
  if ¬ (user_role ∈ applicable_roles) then false
  else
    let applicable_activities := policy.applicable_activities.getD ["all".toList]
    if ¬ ("all".toList ∈ applicable_activities) ∧ ¬ (activity_type ∈ applicable_activities)
    then false
    else decide (policy.status.getD "active".toList = "active".toList)

/-- `_get_applicable_policies`: the table scan is `none` when it raises, in
which case the except-branch returns the empty list. -/
def get_applicable_policies (store : Option (List Policy))
    (user_role activity_type : Str) : List Policy :=
  match store with
  | none => []
  | some policies => policies.filter (fun policy => policy_applies policy user_role activity_type)

/-- The result dict of `PolicyEnforcerAgent.process` (the timestamp field is
elided). -/
structure EnforcementResult where
  allowed : Bool
  policy_results : List PolicyVerdict
  enforcement_actions : List Str
  applicable_policies_count : ℕ
  user_role : Str
  activity_type : Str
deriving DecidableEq

/-- `PolicyEnforcerAgent.process`: fetch the applicable policies, evaluate
each, and accumulate the overall `allowed` flag and the enforcement actions of
the disallowing policies. -/
def process (store : Option (List Policy)) (content user_role activity_type : Str)
    (env : BedrockEnv) : EnforcementResult :=
  let applicable_policies := get_applicable_policies store user_role activity_type
  let acc := applicable_policies.foldl
    (fun (acc : List PolicyVerdict × Bool × List Str) policy =>
      let result := evaluate_policy policy content user_role activity_type env
      ( acc.1 ++ [result],
        acc.2.1 && result.allowed,
        if result.allowed then acc.2.2 else acc.2.2 ++ result.actions ))
    ([], true, [])
  { allowed := acc.2.1
    policy_results := acc.1
    enforcement_actions := acc.2.2
    applicable_policies_count := applicable_policies.length
    user_role := user_role
    activity_type := activity_type }

end PolicyEnforcer

/- ===================== AegisOrchestrator ===================== -/

namespace Orchestrator

/-- The user context built by `authenticate_user`. -/
structure UserContext where
  user_id : Str
  username : Str
  role : Str
  permissions : List Str
deriving DecidableEq

/-- `_get_role_permissions`. -/
def get_role_permissions (role : Str) : List Str :=
  if role = "admin".toList then
    ["read".toList, "write".toList, "admin".toList, "audit".toList, "policy_manage".toList]
  else if role = "analyst".toList then ["read".toList, "write".toList, "audit".toList]
  else if role = "user".toList then ["read".toList]
  else ["read".toList]

/-- `authenticate_user`: a missing or empty token is rejected; a `demo_` token
is accepted with the role parsed out of it; any other token goes to Cognito,
whose verification outcome is the `cognito` parameter (`none` models a raised
`get_user` exception, i.e. a rejected token). The result is the user context,
or `none` when `authenticated` is false. -/
def authenticate_user (user_token : Option Str) (cognito : Option UserContext) :
    Option UserContext :=
  match user_token with
  | none => none
  | some token =>
    if token = [] then none
    else if ("demo_".toList).isPrefixOf token then
      let parts := token.splitOn '_'
      let role := if 1 < parts.length then parts.getD 1 [] else "user".toList
      some { user_id := "demo_user_".toList ++ role
             username := "demo_".toList ++ role
             role := role
             permissions := get_role_permissions role }
    else cognito

/-- The observable outcome of one `lambda_handler` run: the HTTP status code,
the agents whose `process` ran, in order, and whether the audit logger wrote a
record. -/
structure HandlerOutcome where
  statusCode : ℕ
  agents_run : List Str
  audit_written : Bool
deriving DecidableEq

/-- The governed request, as read out of the Lambda `event` dict
(`data.get('prompt', '')` and `data.get('output', '')` give the empty-string
defaults). -/
structure Event where
  request_type : Str
  user_token : Option Str
  prompt : Str
  output : Str
deriving DecidableEq

/-- The stage agents as seen by the orchestrator: the terminal statuses their
`process` methods would report, used only to decide whether the conditional
advisory stage runs. -/
structure AgentEnv where
  prompt_guard_status : Str → Str
  output_audit_status : Str → Str

/-- `handle_prompt_analysis`: 400 on an empty prompt; otherwise run the
`prompt_analysis` workflow and append the advisory stage when the prompt-guard
status is BLOCKED or WARNING. The audit logger is part of the workflow. -/
def handle_prompt_analysis (agents : AgentEnv) (prompt : Str) : HandlerOutcome :=
  if prompt = [] then { statusCode := 400, agents_run := [], audit_written := false }
  else
    let workflow := ["prompt_guard".toList, "policy_enforcer".toList, "audit_logger".toList]
    let status := agents.prompt_guard_status prompt
    if status = "BLOCKED".toList ∨ status = "WARNING".toList then
      { statusCode := 200, agents_run := workflow ++ ["advisory".toList], audit_written := true }
    else { statusCode := 200, agents_run := workflow, audit_written := true }

/-- `handle_output_audit`: 400 on an empty output; otherwise run the
`output_audit` workflow and append the advisory stage when the audit status is
REVISION_REQUIRED or REVIEW_RECOMMENDED. -/
def handle_output_audit (agents : AgentEnv) (output : Str) : HandlerOutcome :=
  if output = [] then { statusCode := 400, agents_run := [], audit_written := false }
  else
    let workflow := ["output_auditor".toList, "policy_enforcer".toList, "audit_logger".toList]
    let status := agents.output_audit_status output
    if status = "REVISION_REQUIRED".toList ∨ status = "REVIEW_RECOMMENDED".toList then
      { statusCode := 200, agents_run := workflow ++ ["advisory".toList], audit_written := true }
    else { statusCode := 200, agents_run := workflow, audit_written := true }

/-- `handle_feedback_submission`: the `feedback_collection` workflow. -/
def handle_feedback_submission : HandlerOutcome :=
  { statusCode := 200
    agents_run := ["feedback".toList, "audit_logger".toList]
    audit_written := true }

/-- `handle_advisory_request`: the `advisory_guidance` workflow. -/
def handle_advisory_request : HandlerOutcome :=
  { statusCode := 200
    agents_run := ["advisory".toList, "audit_logger".toList]
    audit_written := true }

/-- `handle_full_governance`: 400 when both prompt and output are empty;
otherwise the `full_governance` workflow, skipping prompt guard or output
auditor when the corresponding text is absent. -/
def handle_full_governance (prompt output : Str) : HandlerOutcome :=
  if prompt = [] ∧ output = [] then
    { statusCode := 400, agents_run := [], audit_written := false }
  else
    { statusCode := 200
      agents_run :=
        (if prompt ≠ [] then ["prompt_guard".toList] else [])
        ++ (if output ≠ [] then ["output_auditor".toList] else [])
        ++ ["policy_enforcer".toList, "advisory".toList, "audit_logger".toList]
      audit_written := true }

/-- `handle_audit_logs_request`: 403 without the `audit` permission; the
retrieval path calls no agent's `process` and writes no audit record. -/
def handle_audit_logs_request (ctx : UserContext) : HandlerOutcome :=
  if "audit".toList ∈ ctx.permissions then
    { statusCode := 200, agents_run := [], audit_written := false }
  else { statusCode := 403, agents_run := [], audit_written := false }

/-- `AegisOrchestrator.lambda_handler`: authenticate first; on failure return
the 401 rejection before any agent runs, otherwise route by request type. -/
def lambda_handler (event : Event) (cognito : Option UserContext)
    (agents : AgentEnv) : HandlerOutcome :=
  match authenticate_user event.user_token cognito with
  | none => { statusCode := 401, agents_run := [], audit_written := false }
  | some ctx =>
    let rt := event.request_type
    if rt = "analyze_prompt".toList then handle_prompt_analysis agents event.prompt
    else if rt = "audit_output".toList then handle_output_audit agents event.output
    else if rt = "submit_feedback".toList then handle_feedback_submission
    else if rt = "get_advisory".toList then handle_advisory_request
    else if rt = "full_governance_check".toList then handle_full_governance event.prompt event.output
    else if rt = "get_audit_logs".toList then handle_audit_logs_request ctx
    else { statusCode := 400, agents_run := [], audit_written := false }

end Orchestrator

/- ===================== Helper lemmas ===================== -/

lemma strContains_iff (s w : Str) : strContains s w = true ↔ w <:+: s := by
  unfold strContains occursAt
  simp only [List.any_eq_true, List.mem_range, decide_eq_true_eq]
  constructor
  · rintro ⟨i, -, h⟩
    have h1 : w <+: s.drop i := h ▸ List.take_prefix _ _
    exact h1.isInfix.trans (List.drop_suffix i s).isInfix
  · rintro ⟨t1, t2, rfl⟩
    refine ⟨t1.length, ?_, ?_⟩
    · simp only [List.length_append]
      omega
    · rw [List.append_assoc, List.drop_left, List.take_left]

lemma length_filterMap_pos {α β : Type} (l : List α) (c : α → Bool) (g : α → β) :
    (l.filterMap (fun x => if c x then some (g x) else none)).length = l.countP c := by
  induction l with
  | nil => rfl
  | cons x l ih =>
    by_cases hx : c x
    · simp [List.filterMap_cons, hx, List.countP_cons, ih]
    · simp [List.filterMap_cons, hx, List.countP_cons, ih]

lemma length_filterMap_neg {α β : Type} (l : List α) (c : α → Bool) (g : α → β) :
    (l.filterMap (fun x => if c x then none else some (g x))).length
      = l.countP (fun x => ! c x) := by
  induction l with
  | nil => rfl
  | cons x l ih =>
    by_cases hx : c x
    · simp [List.filterMap_cons, hx, List.countP_cons, ih]
    · simp [List.filterMap_cons, hx, List.countP_cons, ih]

lemma foldl_if_eq_init {α : Type} (l : List α) (c : α → Bool) (w a : ℚ)
    (h : ∀ x ∈ l, c x = false) :
    l.foldl (fun acc x => if c x then acc + w else acc) a = a := by
  induction l generalizing a with
  | nil => rfl
  | cons x l ih =>
    rw [List.foldl_cons, if_neg]
    · exact ih _ (fun y hy => h y (List.mem_cons_of_mem x hy))
    · simp [h x (List.mem_cons_self x l)]

namespace PolicyEnforcer

lemma foldl_verdicts {α : Type} (f : α → RuleVerdict) (l : List α) :
    ∀ (v0 : List RuleVerdict) (b0 : Bool) (a0 : List Str),
    l.foldl
      (fun (acc : List RuleVerdict × Bool × List Str) x =>
        if (f x).passed then acc else (acc.1 ++ [f x], false, acc.2.2 ++ (f x).actions))
      (v0, b0, a0)
    = (v0 ++ (l.map f).filter (fun v => ! v.passed),
       b0 && (l.map f).all (fun v => v.passed),
       a0 ++ (((l.map f).filter (fun v => ! v.passed)).map RuleVerdict.actions).flatten) := by
  induction l with
  | nil => intro v0 b0 a0; simp
  | cons x l ih =>
    intro v0 b0 a0
    by_cases hx : (f x).passed
    · rw [List.foldl_cons, if_pos hx, ih]
      simp [hx]
    · rw [List.foldl_cons, if_neg hx, ih]
      simp only [Bool.not_eq_true] at hx
      simp [hx]

lemma evaluate_policy_eq (policy : Policy) (content user_role activity_type : Str)
    (env : BedrockEnv) :
    evaluate_policy policy content user_role activity_type env
    = { policy_name := policy.policy_name.getD "Unknown".toList
        allowed := (((policy.rules.getD []).map
          (fun rule => evaluate_rule rule content user_role activity_type env)).all
            (fun v => v.passed))
        violations := (((policy.rules.getD []).map
          (fun rule => evaluate_rule rule content user_role activity_type env)).filter
            (fun v => ! v.passed))
        actions := ((((policy.rules.getD []).map
          (fun rule => evaluate_rule rule content user_role activity_type env)).filter
            (fun v => ! v.passed)).map RuleVerdict.actions).flatten
        rule_count := (policy.rules.getD []).length } := by
  unfold evaluate_policy
  dsimp only
  rw [foldl_verdicts (fun rule => evaluate_rule rule content user_role activity_type env)
    (policy.rules.getD [])]
  simp

lemma policy_applies_iff (policy : Policy) (user_role activity_type : Str) :
    policy_applies policy user_role activity_type = true ↔
      policy.status.getD "active".toList = "active".toList
      ∧ user_role ∈ policy.applicable_roles.getD
          ["admin".toList, "analyst".toList, "user".toList]
      ∧ (activity_type ∈ policy.applicable_activities.getD ["all".toList]
         ∨ "all".toList ∈ policy.applicable_activities.getD ["all".toList]) := by
  simp only [policy_applies]
  by_cases h1 : user_role ∈ policy.applicable_roles.getD
      ["admin".toList, "analyst".toList, "user".toList]
  · rw [if_neg (not_not_intro h1)]
    by_cases h2 : ¬ ("all".toList ∈ policy.applicable_activities.getD ["all".toList])
        ∧ ¬ (activity_type ∈ policy.applicable_activities.getD ["all".toList])
    · rw [if_pos h2]
      simp only [Bool.false_eq_true, false_iff]
      tauto
    · rw [if_neg h2]
      push_neg at h2
      simp only [decide_eq_true_eq]
      tauto
  · rw [if_pos h1]
    simp only [Bool.false_eq_true, false_iff]
    tauto

end PolicyEnforcer

/- ===================== Claim theorems ===================== -/

/-- Claim C1, counterexample: a risk score of 6.99 with no violations and no
content flags yields WARNING (because 6.99 ≥ 4.0), not APPROVED as the claim's
boundary example asserts. -/
theorem C1_counterexample :
    PromptGuard.determine_status 6.99 [] [] = "WARNING".toList ∧
    PromptGuard.determine_status 6.99 [] [] ≠ "APPROVED".toList := by
  have h : PromptGuard.determine_status 6.99 [] [] = "WARNING".toList := by
    unfold PromptGuard.determine_status
    rw [if_neg (by norm_num), if_pos (by norm_num)]
  exact ⟨h, by rw [h]; decide⟩

/-- Claim C1, amended: the prompt-screening status is BLOCKED iff
risk_score ≥ 7.0 or violations ≥ 2; WARNING iff not blocked and
(risk_score ≥ 4.0 or violations ≥ 1 or flags ≥ 1); APPROVED otherwise.
Boundaries: risk_score = 7.0 with 0 violations yields BLOCKED, and
risk_score = 6.99 with 0 violations and 0 flags yields WARNING (not
APPROVED as the original claim stated). -/
theorem C1_amended :
    (∀ (risk_score : ℚ) (violations flags : List Str),
      (PromptGuard.determine_status risk_score violations flags = "BLOCKED".toList
         ↔ 7.0 ≤ risk_score ∨ 2 ≤ violations.length)
      ∧ (PromptGuard.determine_status risk_score violations flags = "WARNING".toList
         ↔ ¬ (7.0 ≤ risk_score ∨ 2 ≤ violations.length)
           ∧ (4.0 ≤ risk_score ∨ 1 ≤ violations.length ∨ 1 ≤ flags.length))
      ∧ (PromptGuard.determine_status risk_score violations flags = "APPROVED".toList
         ↔ ¬ (7.0 ≤ risk_score ∨ 2 ≤ violations.length)
           ∧ ¬ (4.0 ≤ risk_score ∨ 1 ≤ violations.length ∨ 1 ≤ flags.length)))
    ∧ PromptGuard.determine_status 7.0 [] [] = "BLOCKED".toList
    ∧ PromptGuard.determine_status 6.99 [] [] = "WARNING".toList := by
  refine ⟨fun risk_score violations flags => ?_,
    by unfold PromptGuard.determine_status; rw [if_pos (by norm_num)],
    by unfold PromptGuard.determine_status; rw [if_neg (by norm_num), if_pos (by norm_num)]⟩
  unfold PromptGuard.determine_status
  by_cases h1 : (7.0 : ℚ) ≤ risk_score ∨ 2 ≤ violations.length
  · rw [if_pos h1]
    exact ⟨iff_of_true rfl h1, iff_of_false (by decide) (by simp [h1]),
      iff_of_false (by decide) (by simp [h1])⟩
  · by_cases h2 : (4.0 : ℚ) ≤ risk_score ∨ 1 ≤ violations.length ∨ 1 ≤ flags.length
    · rw [if_neg h1, if_pos h2]
      exact ⟨iff_of_false (by decide) (by simp [h1]), iff_of_true rfl ⟨h1, h2⟩,
        iff_of_false (by decide) (by simp [h1, h2])⟩
    · rw [if_neg h1, if_neg h2]
      exact ⟨iff_of_false (by decide) (by simp [h1]),
        iff_of_false (by decide) (by simp [h1, h2]), iff_of_true rfl ⟨h1, h2⟩⟩

/-- Claim C2, counterexample: at bias = 0.001, toxicity = 0, fairness = 0 the
weighted formula gives 7.9996, but the source rounds to two decimals, so the
overall score is 8.0, not the formula's value — and the rounded score makes the
status APPROVED although the formula's value is below 8. -/
theorem C2_counterexample :
    OutputAuditor.calculate_overall_score 0.001 0 0 = 8
    ∧ ((10 - (0.001 : ℚ)) * 0.4 + (10 - 0) * 0.4 + 0 * 0.2) < 8
    ∧ OutputAuditor.determine_audit_status
        (OutputAuditor.calculate_overall_score 0.001 0 0) [] = "APPROVED".toList := by
  have hfl : ⌊(19999/25 : ℚ)⌋ = 799 := by
    rw [Int.floor_eq_iff]
    norm_num
  have hra : roundHalfEven (19999/25 : ℚ) = 800 := by
    simp only [roundHalfEven, hfl]
    norm_num
  have harg : ((10 - (0.001 : ℚ)) * 0.4 + (10 - 0) * 0.4 + 0 * 0.2) * 100 = 19999/25 := by
    norm_num
  have hov : OutputAuditor.calculate_overall_score 0.001 0 0 = 8 := by
    unfold OutputAuditor.calculate_overall_score round2
    rw [harg, hra]
    norm_num
  refine ⟨hov, by norm_num, ?_⟩
  rw [hov]
  unfold OutputAuditor.determine_audit_status
  rw [if_pos (by norm_num)]

/-- Claim C2, amended: the overall score equals the weighted formula
(10 - bias)*0.4 + (10 - toxicity)*0.4 + fairness*0.2 rounded to two decimal
places (Python `round`), and on that rounded score the audit status is
APPROVED iff overall ≥ 8.0 with no policy violations, REVIEW_RECOMMENDED iff
not approved and overall ≥ 6.0 with at most one violation, and
REVISION_REQUIRED otherwise. -/
theorem C2_amended :
    (∀ bias_score toxicity_score fairness_score : ℚ,
      OutputAuditor.calculate_overall_score bias_score toxicity_score fairness_score
        = round2 ((10 - bias_score) * 0.4 + (10 - toxicity_score) * 0.4
            + fairness_score * 0.2))
    ∧ (∀ (overall_score : ℚ) (violations : List Str),
      (OutputAuditor.determine_audit_status overall_score violations = "APPROVED".toList
         ↔ 8.0 ≤ overall_score ∧ violations = [])
      ∧ (OutputAuditor.determine_audit_status overall_score violations
            = "REVIEW_RECOMMENDED".toList
         ↔ ¬ (8.0 ≤ overall_score ∧ violations = [])
           ∧ (6.0 ≤ overall_score ∧ violations.length ≤ 1))
      ∧ (OutputAuditor.determine_audit_status overall_score violations
            = "REVISION_REQUIRED".toList
         ↔ ¬ (8.0 ≤ overall_score ∧ violations = [])
           ∧ ¬ (6.0 ≤ overall_score ∧ violations.length ≤ 1))) := by
  refine ⟨fun _ _ _ => rfl, fun overall_score violations => ?_⟩
  unfold OutputAuditor.determine_audit_status
  by_cases h1 : (8.0 : ℚ) ≤ overall_score ∧ violations = []
  · rw [if_pos h1]
    exact ⟨iff_of_true rfl h1, iff_of_false (by decide) (by simp [h1]),
      iff_of_false (by decide) (by simp [h1])⟩
  · by_cases h2 : (6.0 : ℚ) ≤ overall_score ∧ violations.length ≤ 1
    · rw [if_neg h1, if_pos h2]
      exact ⟨iff_of_false (by decide) (by simp [h1]), iff_of_true rfl ⟨h1, h2⟩,
        iff_of_false (by decide) (by simp [h1, h2])⟩
    · rw [if_neg h1, if_neg h2]
      exact ⟨iff_of_false (by decide) (by simp [h1]),
        iff_of_false (by decide) (by simp [h1, h2]), iff_of_true rfl ⟨h1, h2⟩⟩

/-- Claim C3, counterexample: a content_filter rule whose parameters are all
missing (the ambiguous configuration) evaluates with passed = true — the
claimed fail-closed behavior (passed = false) for content_filter does not
exist in the code; the empty defaults make it pass. -/
theorem C3_counterexample :
    (PolicyEnforcer.evaluate_rule { type := some "content_filter".toList }
        "anything".toList "user".toList "general".toList (fun _ _ => none)).passed = true
    ∧ ¬ (PolicyEnforcer.evaluate_rule { type := some "content_filter".toList }
        "anything".toList "user".toList "general".toList (fun _ _ => none)).passed = false := by
  constructor
  · rfl
  · intro h
    exact absurd h (by decide)

/-- Claim C3, amended: rule evaluation is a total function (it cannot throw in
the embedding); an ai_analysis rule whose external model call fails receives
the neutral score 0.0 and passes whenever its threshold is nonnegative; and
missing rule parameters are resolved by per-type defaults rather than by a
fail-closed rule for content_filter and role_restriction: a content_filter
rule with missing term lists passes on every content, while a role_restriction
rule with missing parameters defaults allowed_roles to ['admin'] and therefore
passes exactly for the admin role. -/
theorem C3_amended :
    (∀ (rule : PolicyEnforcer.Rule) (content user_role activity_type : Str),
      rule.type = some "ai_analysis".toList →
      0 ≤ rule.threshold.getD 0.5 →
      (PolicyEnforcer.evaluate_rule rule content user_role activity_type
          (fun _ _ => none)).passed = true)
    ∧ (∀ (rule : PolicyEnforcer.Rule) (content user_role activity_type : Str)
        (env : PolicyEnforcer.BedrockEnv),
      rule.type = some "content_filter".toList →
      rule.blocked_terms = none → rule.required_terms = none →
      (PolicyEnforcer.evaluate_rule rule content user_role activity_type env).passed = true)
    ∧ (∀ (rule : PolicyEnforcer.Rule) (content user_role activity_type : Str)
        (env : PolicyEnforcer.BedrockEnv),
      rule.type = some "role_restriction".toList →
      rule.allowed_roles = none → rule.restricted_activities = none →
      ((PolicyEnforcer.evaluate_rule rule content user_role activity_type env).passed = true
        ↔ user_role = "admin".toList)) := by
  refine ⟨?_, ?_, ?_⟩
  · intro rule content user_role activity_type ht hth
    unfold PolicyEnforcer.evaluate_rule
    rw [ht]
    rw [if_neg (by decide), if_neg (by decide), if_neg (by decide), if_neg (by decide),
      if_pos (by decide)]
    unfold PolicyEnforcer.evaluate_ai_analysis PolicyEnforcer.bedrock_policy_analysis
    exact decide_eq_true hth
  · intro rule content user_role activity_type env ht hb hr
    unfold PolicyEnforcer.evaluate_rule
    rw [ht]
    rw [if_pos (by decide)]
    unfold PolicyEnforcer.evaluate_content_filter PolicyEnforcer.content_filter_violations
    rw [hb, hr]
    rfl
  · intro rule content user_role activity_type env ht ha hr
    unfold PolicyEnforcer.evaluate_rule
    rw [ht]
    rw [if_neg (by decide), if_pos (by decide)]
    unfold PolicyEnforcer.evaluate_role_restriction
    rw [ha, hr]
    simp only [Option.getD_none]
    by_cases hrole : user_role = "admin".toList
    · simp [hrole]
    · simp [hrole]

/-- Claim C3, witness: a concrete ai_analysis rule with the default threshold
and a failing model call passes. -/
theorem C3_witness :
    (PolicyEnforcer.evaluate_rule { type := some "ai_analysis".toList }
        "some content".toList "user".toList "general".toList
        (fun _ _ => none)).passed = true :=
  C3_amended.1 { type := some "ai_analysis".toList }
    "some content".toList "user".toList "general".toList rfl (by norm_num)

/-- Claim C4: a stored policy is selected as applicable iff its (defaulted)
status is active, the user role is a member of its (defaulted)
applicable_roles, and the activity is a member of its (defaulted)
applicable_activities or the wildcard "all" is. -/
theorem C4_applicable_iff :
    ∀ (policies : List PolicyEnforcer.Policy) (policy : PolicyEnforcer.Policy)
      (user_role activity_type : Str),
    policy ∈ PolicyEnforcer.get_applicable_policies (some policies) user_role activity_type
      ↔ policy ∈ policies
        ∧ policy.status.getD "active".toList = "active".toList
        ∧ user_role ∈ policy.applicable_roles.getD
            ["admin".toList, "analyst".toList, "user".toList]
        ∧ (activity_type ∈ policy.applicable_activities.getD ["all".toList]
           ∨ "all".toList ∈ policy.applicable_activities.getD ["all".toList]) := by
  intro policies policy user_role activity_type
  unfold PolicyEnforcer.get_applicable_policies
  rw [List.mem_filter, PolicyEnforcer.policy_applies_iff]

/-- Claim C5: for every policy evaluation, `allowed` is the conjunction of all
rule verdicts' `passed` (false iff some rule failed), the violations are
exactly the failing rule verdicts in rule order, and the actions are the
concatenation of the failing verdicts' enforcement actions. -/
theorem C5_policy_verdict :
    ∀ (policy : PolicyEnforcer.Policy) (content user_role activity_type : Str)
      (env : PolicyEnforcer.BedrockEnv),
    let rule_verdicts := (policy.rules.getD []).map
      (fun rule => PolicyEnforcer.evaluate_rule rule content user_role activity_type env)
    let pv := PolicyEnforcer.evaluate_policy policy content user_role activity_type env
    pv.allowed = rule_verdicts.all (fun v => v.passed)
    ∧ (pv.allowed = false ↔ ∃ v ∈ rule_verdicts, v.passed = false)
    ∧ pv.violations = rule_verdicts.filter (fun v => ! v.passed)
    ∧ pv.actions
        = ((rule_verdicts.filter (fun v => ! v.passed)).map
            PolicyEnforcer.RuleVerdict.actions).flatten := by
  intro policy content user_role activity_type env
  rw [PolicyEnforcer.evaluate_policy_eq]
  refine ⟨rfl, ?_, rfl, rfl⟩
  simp only [List.all_eq_false, Bool.not_eq_true]

lemma strContains_eq_false_iff (s w : Str) : strContains s w = false ↔ ¬ w <:+: s := by
  rw [← strContains_iff]
  cases strContains s w <;> simp

/-- Claim C6: a content_filter verdict fails iff some blocked term occurs in
the content as a case-insensitive substring or some required term is absent;
the violations list is exhaustive (one entry per blocked-term hit and per
missing required term, not short-circuited); and a rule with empty blocked and
required term lists passes on every content. -/
theorem C6_content_filter :
    ∀ (rule : PolicyEnforcer.Rule) (content : Str),
    ((PolicyEnforcer.evaluate_content_filter rule content).passed = false
       ↔ (∃ term ∈ rule.blocked_terms.getD [], lowerStr term <:+: lowerStr content)
         ∨ (∃ term ∈ rule.required_terms.getD [], ¬ lowerStr term <:+: lowerStr content))
    ∧ (PolicyEnforcer.content_filter_violations rule content).length
        = (rule.blocked_terms.getD []).countP
            (fun term => strContains (lowerStr content) (lowerStr term))
          + (rule.required_terms.getD []).countP
            (fun term => ! strContains (lowerStr content) (lowerStr term))
    ∧ (rule.blocked_terms.getD [] = [] → rule.required_terms.getD [] = [] →
        (PolicyEnforcer.evaluate_content_filter rule content).passed = true) := by
  intro rule content
  have hlen : (PolicyEnforcer.content_filter_violations rule content).length
      = (rule.blocked_terms.getD []).countP
          (fun term => strContains (lowerStr content) (lowerStr term))
        + (rule.required_terms.getD []).countP
          (fun term => ! strContains (lowerStr content) (lowerStr term)) := by
    unfold PolicyEnforcer.content_filter_violations
    dsimp only
    rw [List.length_append, length_filterMap_pos, length_filterMap_neg]
  have hB : ((rule.blocked_terms.getD []).countP
      (fun term => strContains (lowerStr content) (lowerStr term)) = 0)
      ↔ ∀ term ∈ rule.blocked_terms.getD [], ¬ lowerStr term <:+: lowerStr content := by
    rw [List.countP_eq_zero]
    simp only [strContains_iff]
  have hR : ((rule.required_terms.getD []).countP
      (fun term => ! strContains (lowerStr content) (lowerStr term)) = 0)
      ↔ ∀ term ∈ rule.required_terms.getD [], lowerStr term <:+: lowerStr content := by
    rw [List.countP_eq_zero]
    simp only [Bool.not_eq_true', strContains_eq_false_iff, not_not]
  have hp : (PolicyEnforcer.evaluate_content_filter rule content).passed
      = decide ((PolicyEnforcer.content_filter_violations rule content).length = 0) := rfl
  refine ⟨?_, hlen, ?_⟩
  · rw [hp, decide_eq_false_iff_not, hlen]
    constructor
    · intro h
      by_contra hc
      push_neg at hc
      exact h (by rw [Nat.add_eq_zero]; exact ⟨hB.mpr hc.1, hR.mpr hc.2⟩)
    · intro h hzero
      rw [Nat.add_eq_zero] at hzero
      rcases h with ⟨term, ht, hinf⟩ | ⟨term, ht, hinf⟩
      · exact (hB.mp hzero.1 term ht) hinf
      · exact hinf (hR.mp hzero.2 term ht)
  · intro hb hr
    have hnil : PolicyEnforcer.content_filter_violations rule content = [] := by
      unfold PolicyEnforcer.content_filter_violations
      dsimp only
      rw [hb, hr]
      rfl
    rw [hp, hnil]
    rfl

/-- Claim C6, witness: a content_filter rule with no term lists configured
passes on a concrete content. -/
theorem C6_witness :
    (PolicyEnforcer.evaluate_content_filter { type := some "content_filter".toList }
        "sample text".toList).passed = true :=
  (C6_content_filter { type := some "content_filter".toList } "sample text".toList).2.2 rfl rfl

/-- Claim C7: an empty or unreachable policy store degrades to "no policies
apply": the applicable-policy list is empty and the enforcement result is
allowed = true with no policy results and no enforcement actions. -/
theorem C7_degrade :
    ∀ (store : Option (List PolicyEnforcer.Policy)) (content user_role activity_type : Str)
      (env : PolicyEnforcer.BedrockEnv),
    store = none ∨ store = some [] →
    PolicyEnforcer.get_applicable_policies store user_role activity_type = []
    ∧ PolicyEnforcer.process store content user_role activity_type env
      = { allowed := true, policy_results := [], enforcement_actions := [],
          applicable_policies_count := 0, user_role := user_role,
          activity_type := activity_type } := by
  rintro store content user_role activity_type env (rfl | rfl)
  · exact ⟨rfl, rfl⟩
  · exact ⟨rfl, rfl⟩

/-- Claim C7, witness: a raising store (modelled as `none`) yields the
allow-everything enforcement result at concrete inputs. -/
theorem C7_witness :
    PolicyEnforcer.process none "some content".toList "user".toList
        "prompt_submission".toList (fun _ _ => none)
      = { allowed := true, policy_results := [], enforcement_actions := [],
          applicable_policies_count := 0, user_role := "user".toList,
          activity_type := "prompt_submission".toList } :=
  (C7_degrade none "some content".toList "user".toList "prompt_submission".toList
    (fun _ _ => none) (Or.inl rfl)).2

/-- Claim C8: a prompt with no risk keyword, length at most 2000, no matching
injection pattern, and a failed or neutral model rating scores exactly 0.0. -/
theorem C8_risk_floor :
    ∀ (prompt : Str) (resp : Option ℚ),
    (∀ keyword ∈ PromptGuard.risk_keywords, strContains (lowerStr prompt) keyword = false) →
    prompt.length ≤ 2000 →
    (∀ pat ∈ PromptGuard.injection_patterns, reSearchSeq pat (lowerStr prompt) = false) →
    PromptGuard.bedrock_risk_analysis resp = 0 →
    PromptGuard.calculate_risk_score prompt resp = 0 := by
  intro prompt resp h1 h2 h3 h4
  unfold PromptGuard.calculate_risk_score
  dsimp only
  rw [foldl_if_eq_init _ _ _ _ h1]
  rw [if_neg (by omega : ¬ 2000 < prompt.length)]
  rw [foldl_if_eq_init _ _ _ _ h3]
  rw [h4]
  norm_num [min_def]

/-- Claim C8, witness: a concrete harmless prompt with a failed model call
scores 0.0. -/
theorem C8_witness : PromptGuard.calculate_risk_score "hello".toList none = 0 :=
  C8_risk_floor "hello".toList none (by decide) (by decide) (by decide) rfl

/-- Claim C9: when authentication fails (missing or rejected token), the
handler returns the 401 rejection immediately: no agent's process runs and no
audit record is written, whatever the agents would have done. -/
theorem C9_auth_gate :
    ∀ (event : Orchestrator.Event) (cognito : Option Orchestrator.UserContext)
      (agents : Orchestrator.AgentEnv),
    Orchestrator.authenticate_user event.user_token cognito = none →
    Orchestrator.lambda_handler event cognito agents
      = { statusCode := 401, agents_run := [], audit_written := false } := by
  intro event cognito agents h
  unfold Orchestrator.lambda_handler
  rw [h]

/-- Claim C9, witness: a request with no token is rejected with 401 and runs
nothing. -/
theorem C9_witness :
    Orchestrator.lambda_handler
      { request_type := "analyze_prompt".toList, user_token := none,
        prompt := "hi there".toList, output := [] }
      none
      { prompt_guard_status := fun _ => "APPROVED".toList,
        output_audit_status := fun _ => "APPROVED".toList }
      = { statusCode := 401, agents_run := [], audit_written := false } :=
  C9_auth_gate
    { request_type := "analyze_prompt".toList, user_token := none,
      prompt := "hi there".toList, output := [] }
    none
    { prompt_guard_status := fun _ => "APPROVED".toList,
      output_audit_status := fun _ => "APPROVED".toList }
    rfl

/-- Claim C10: a rule whose type string is not one of the five recognized
kinds evaluates to a passing verdict with no actions and a message naming the
unknown type. -/
theorem C10_unknown_rule :
    ∀ (rule : PolicyEnforcer.Rule) (content user_role activity_type : Str)
      (env : PolicyEnforcer.BedrockEnv),
    rule.type.getD "unknown".toList ∉
      ["content_filter".toList, "role_restriction".toList, "time_restriction".toList,
       "content_length".toList, "ai_analysis".toList] →
    PolicyEnforcer.evaluate_rule rule content user_role activity_type env
      = { rule_name := rule.name.getD "Unnamed Rule".toList
          passed := true
          message := "Unknown rule type: ".toList ++ rule.type.getD "unknown".toList
          actions := [] } := by
  intro rule content user_role activity_type env h
  simp only [List.mem_cons, List.not_mem_nil, or_false, not_or] at h
  obtain ⟨h1, h2, h3, h4, h5⟩ := h
  unfold PolicyEnforcer.evaluate_rule
  dsimp only
  rw [if_neg h1, if_neg h2, if_neg h3, if_neg h4, if_neg h5]

/-- Claim C10, witness: the repository's own `keyword_block` rule type is not
among the five recognized kinds and silently passes. -/
theorem C10_witness :
    PolicyEnforcer.evaluate_rule { type := some "keyword_block".toList }
        "some content".toList "user".toList "general".toList (fun _ _ => none)
      = { rule_name := "Unnamed Rule".toList
          passed := true
          message := "Unknown rule type: keyword_block".toList
          actions := [] } := by
  rw [C10_unknown_rule { type := some "keyword_block".toList }
    "some content".toList "user".toList "general".toList (fun _ _ => none) (by decide)]
  rfl
